import Mathlib

/-!
Verification development for the store-placement prediction service
(`src/server/predict_location_api.py`, `src/python-api/predict_location_api.py`,
`src/server/ml/train_model.py`).

The Python code is shallowly embedded: floats become rationals, pandas
DataFrames become lists of records or association lists, raised exceptions
become `Except.error`, and externally drawn values (the joblib model artifact,
`random.uniform` draws, trigonometric values of the drawn angle, the geodesic
distance function from the geopy library) become explicit parameters.
-/

namespace StorePlacement

/-! ## GeoJSON geometry normalization (`process_geojson`)

A GeoJSON coordinate field is an arbitrarily nested array of numbers; we model
it as a rose tree.  A feature's `geometry` mapping may lack the `type` or
`coordinates` keys (Python's `feature.get('geometry', {})` turns a missing
geometry into an empty dict, so a missing geometry is the geometry with both
fields absent); subscripting a missing key raises `KeyError`, modelled as
`Except.error`. -/

inductive CoordVal where
  | num (q : ℚ)
  | list (xs : List CoordVal)

structure Geometry where
  type? : Option String
  coordinates? : Option CoordVal

structure Feature where
  geometry : Geometry
  fclass? : Option String
  name? : Option String

/-- One row of the DataFrame built by `process_geojson`: Python's tuple
unpacking `lon, lat = geom['coordinates']` binds whatever the two elements
are, so the stored coordinates are arbitrary coordinate values. -/
structure Record where
  latitude : CoordVal
  longitude : CoordVal
  fclass? : Option String
  name? : Option String

/-- The body of the `for feature in geojson_data['features']` loop of
`process_geojson` (both API copies) and of `process_geojson_data`
(train_model.py), for a single feature.

* `geom['type']` on a geometry without a `type` key raises `KeyError`;
* only the `'Point'` branch exists: every other geometry type falls through
  the `if` and contributes nothing (`Except.ok none`);
* `lon, lat = geom['coordinates']` raises unless the value is a sequence of
  exactly two elements. -/
def processFeature (f : Feature) : Except String (Option Record) :=
  match f.geometry.type? with
  | none => Except.error "KeyError type"
  | some t =>
    if t = "Point" then
      match f.geometry.coordinates? with
      | none => Except.error "KeyError coordinates"
      | some (CoordVal.num _) => Except.error "TypeError cannot unpack non-sequence"
      | some (CoordVal.list [lonv, latv]) =>
          Except.ok (some { latitude := latv, longitude := lonv,
                            fclass? := f.fclass?, name? := f.name? })
      | some (CoordVal.list _) => Except.error "ValueError unpack length"
    else
      Except.ok none

/-- `process_geojson` of the two API files, after the file has been read and
parsed: the whole `for` loop sits inside a single `try`, and the `except`
clause is at function level, so the first exception stops the loop and the
rows appended so far are returned as the resulting DataFrame. -/
def process_geojson : List Feature → List Record
  | [] => []
  | f :: rest =>
    match processFeature f with
    | Except.error _ => []
    | Except.ok none => process_geojson rest
    | Except.ok (some r) => r :: process_geojson rest

/-- The dedup invariant asserted by the spec: no two records of the same
category share an identical (latitude, longitude) pair. -/
def dedupInvariant (rs : List Record) : Prop :=
  rs.Pairwise (fun a b =>
    a.fclass? = b.fclass? → ¬(a.latitude = b.latitude ∧ a.longitude = b.longitude))

/-! ## Distances and the near-settlement flag

`geopy.distance.geodesic(p, q).km` is an external library call; the prediction
logic is parameterised over the distance function it denotes.  For concrete
evaluations we use `approxDistKm`, a stand-in that, like the true geodesic
distance, is nonnegative and vanishes exactly on identical coordinate pairs,
and agrees with the spec's ~111 km/degree linear approximation on
axis-aligned offsets. -/

abbrev Dist := ℚ × ℚ → ℚ × ℚ → ℚ

def approxDistKm : Dist :=
  fun p q => 111 * (|p.1 - q.1| + |p.2 - q.2|)

/-- The per-point settlement test of `predict_locations_logic`:
`any(0 < geodesic(point, s).km <= 2.0 for s in settlement_coords)`
(and `False` when `settlement_coords` is empty, which `any` already gives). -/
def near_settlement (dist : Dist) (p : ℚ × ℚ) (settlement_coords : List (ℚ × ℚ)) : Bool :=
  settlement_coords.any (fun s => decide (0 < dist p s) && decide (dist p s ≤ 2))

/-! ## One-hot encoding and column alignment

`pd.get_dummies(df[['latitude','longitude','fclass','near_settlement']],
columns=['fclass'])` keeps the numeric columns in order and appends one
indicator column `fclass_<v>` per distinct value `v` of the batch (pandas
emits them sorted; only the set matters after reindexing).
`X.reindex(columns=feature_columns, fill_value=0)` then produces exactly the
schema's columns in the schema's order, filling 0 where the batch produced no
such column. -/

def insortDedup (s : String) : List String → List String
  | [] => [s]
  | t :: ts =>
    if s < t then s :: t :: ts
    else if s = t then t :: ts
    else t :: insortDedup s ts

def sortedUnique (xs : List String) : List String :=
  xs.foldr insortDedup []

/-- The row of `X_new` (post `get_dummies`) for one location, as an
association list from column name to numeric cell value. -/
def encodedRow (dummyCols : List String) (lat lon : ℚ) (fclass : String) (near : Bool) :
    List (String × ℚ) :=
  [("latitude", lat), ("longitude", lon), ("near_settlement", if near then 1 else 0)]
    ++ dummyCols.map (fun v => ("fclass_" ++ v, if fclass = v then 1 else 0))

/-- `row.reindex(columns=cols, fill_value=0)`: exactly the columns of `cols`,
in order, each carrying the row's value when the row has that column and 0
otherwise. -/
def reindexRow (cols : List String) (row : List (String × ℚ)) : List (String × ℚ) :=
  cols.map (fun c => (c, (row.lookup c).getD 0))

/-! ## The classifier artifact and the prediction logic

The joblib-loaded classifier is an external collaborator; only its abstract
contract is embedded.  `predict_proba?` is `none` when the object lacks a
`predict_proba` attribute. -/

structure Model where
  predict : List (List ℚ) → List Bool
  predict_proba : Option (List (List ℚ) → List (ℚ × ℚ))

structure Location where
  latitude : ℚ
  longitude : ℚ
  fclass : String
deriving DecidableEq, Inhabited

structure ResultRec where
  latitude : ℚ
  longitude : ℚ
  suitable : Bool
  confidence : Option ℚ
deriving DecidableEq, Inhabited

/-- The module-level state of an API file after its import-time loading:
the model and feature-column artifacts (each `none` when loading failed)
and the settlement coordinates extracted from the reference GeoJSON. -/
structure Ctx where
  model? : Option Model
  feature_columns? : Option (List String)
  settlement_coords : List (ℚ × ℚ)

/-- Python's float modulo `a % b` for `b > 0`. -/
def pymod (a b : ℚ) : ℚ := a - b * ⌊a / b⌋

/-- `round(x, 2)`: banker's rounding to two decimal places. -/
def roundHalfEven (q : ℚ) : ℤ :=
  if q - ⌊q⌋ < 1/2 then ⌊q⌋
  else if q - ⌊q⌋ > 1/2 then ⌊q⌋ + 1
  else if ⌊q⌋ % 2 = 0 then ⌊q⌋ else ⌊q⌋ + 1

def round2 (q : ℚ) : ℚ := (roundHalfEven (q * 100) : ℚ) / 100

/-- The matrix `X_new` after `get_dummies` and `reindex(columns=feature_columns,
fill_value=0)`, one row per location, in input order. -/
def buildMatrix (dist : Dist) (coords : List (ℚ × ℚ)) (cols : List String)
    (locations : List Location) : List (List ℚ) :=
  let dummy := sortedUnique (locations.map (fun l => l.fclass))
  locations.map (fun loc =>
    (reindexRow cols
      (encodedRow dummy loc.latitude loc.longitude loc.fclass
        (near_settlement dist (loc.latitude, loc.longitude) coords))).map Prod.snd)

/-- `probabilities`: `model.predict_proba(X_new)` when the attribute exists,
else `[[None, None]] * len(predictions)`. -/
def probaList (m : Model) (X : List (List ℚ)) : List (Option (ℚ × ℚ)) :=
  match m.predict_proba with
  | some f => (f X).map some
  | none => List.replicate (m.predict X).length none

/-- One response record: the loop body of the result-formatting `for`. -/
def mkRec (loc : Location) (pred : Bool) (prob : Option (ℚ × ℚ)) : ResultRec :=
  { latitude := loc.latitude, longitude := loc.longitude, suitable := pred,
    confidence := prob.map (fun pr => round2 pr.2) }

/-- The result-formatting loop `for i, (pred, prob) in enumerate(zip(...))`:
`new_df.iloc[i]` raises when `i` is out of bounds, which the surrounding
`try` turns into a request-level prediction error. -/
def buildResults (locations : List Location) :
    ℕ → List (Bool × Option (ℚ × ℚ)) → Except String (List ResultRec)
  | _, [] => Except.ok []
  | i, pr :: rest =>
    match locations[i]? with
    | none => Except.error "Prediction error positional indexer out-of-bounds"
    | some loc =>
      match buildResults locations (i + 1) rest with
      | Except.error e => Except.error e
      | Except.ok rs => Except.ok (mkRec loc pr.1 pr.2 :: rs)

/-- The batch of response records when predictions and probabilities line up
with the inputs. -/
def expectedResults (locations : List Location) (preds : List Bool)
    (probs : List (Option (ℚ × ℚ))) : List ResultRec :=
  (locations.zip (preds.zip probs)).map (fun x => mkRec x.1 x.2.1 x.2.2)

/-- `predict_locations_logic` of `src/server/predict_location_api.py`:
raises "Model not loaded properly" when either artifact is missing, else
computes features, aligns columns, scores, and formats one record per row. -/
def predict_locations_logic_server (dist : Dist) (ctx : Ctx)
    (locations : List Location) : Except String (List ResultRec) :=
  match ctx.model?, ctx.feature_columns? with
  | some m, some cols =>
    let X := buildMatrix dist ctx.settlement_coords cols locations
    buildResults locations 0 ((m.predict X).zip (probaList m X))
  | _, _ => Except.error "Model not loaded properly"

/-- The mock record of the second (overriding) `predict_locations_logic` in
`src/python-api/predict_location_api.py`: `suitable` from a coordinate hash,
`confidence = round(random.uniform(0.6, 0.9), 2)` with the raw draw `u`
supplied as input. -/
def mock_result (loc : Location) (u : ℚ) : ResultRec :=
  let latFactor := pymod loc.latitude 1 * 100
  let lngFactor := pymod loc.longitude 1 * 100
  { latitude := loc.latitude, longitude := loc.longitude,
    suitable := decide (1 < pymod (latFactor + lngFactor) 3),
    confidence := some (round2 u) }

/-- The effective `predict_locations_logic` of
`src/python-api/predict_location_api.py`: the file defines the function
twice and the second definition (line 460) overrides the first, so when the
model or schema is missing it returns synthetic mock records instead of
raising.  `draws i` is the i-th `random.uniform(0.6, 0.9)` draw. -/
def predict_locations_logic_pyapi (dist : Dist) (draws : ℕ → ℚ) (ctx : Ctx)
    (locations : List Location) : Except String (List ResultRec) :=
  match ctx.model?, ctx.feature_columns? with
  | some m, some cols =>
    let X := buildMatrix dist ctx.settlement_coords cols locations
    buildResults locations 0 ((m.predict X).zip (probaList m X))
  | _, _ =>
    Except.ok ((locations.enum).map (fun p => mock_result p.2 (draws p.1)))

/-- The overwrite loop of `/force-mixed-results` in the all-unsuitable case:
`for i in range(0, len(results), 3): results[i]['suitable'] = True;
results[i]['confidence'] = 0.75`. -/
def overwriteThird (results : List ResultRec) : List ResultRec :=
  results.enum.map (fun p =>
    if p.1 % 3 = 0 then { p.2 with suitable := true, confidence := some (3/4) } else p.2)

/-- The `/force-mixed-results` endpoint of `src/server/predict_location_api.py`
(the all-unsuitable branch is identical in the python-api copy): when the
real predictions are all unsuitable, every third record is overwritten. -/
def force_mixed_results (dist : Dist) (ctx : Ctx) (locations : List Location) :
    Except String (List ResultRec) :=
  match ctx.model?, ctx.feature_columns? with
  | some _, some _ =>
    match predict_locations_logic_server dist ctx locations with
    | Except.error e => Except.error e
    | Except.ok results =>
      if results.all (fun r => !r.suitable)
      then Except.ok (overwriteThird results)
      else Except.ok results
  | _, _ => Except.error "Model not loaded properly"

/-! ## Circle sampling (`generate_points_in_circle`)

Each iteration draws an angle and a radial factor; the trigonometric values
`c = cos(angle)`, `s = sin(angle)` and the radial factor `sq = sqrt(u)` of
the uniform draw `u` enter the embedding as one drawn triple per point,
constrained in the theorems by `c^2 + s^2 = 1` and `0 ≤ sq ≤ 1`.
The code's constants are 110.54 km per degree of latitude and
111.32 * cos(center_lat) km per degree of longitude; `coslat` stands for
`cos(radians(center_lat))`. -/

def generate_point (center_lat center_lng radius_km c s sq coslat : ℚ) : ℚ × ℚ :=
  (center_lat + radius_km * sq * c / (5527/50),
   center_lng + radius_km * sq * s / ((2783/25) * coslat))

def generate_points_in_circle (center_lat center_lng radius_km coslat : ℚ)
    (draws : List (ℚ × ℚ × ℚ)) : List (ℚ × ℚ) :=
  draws.map (fun d => generate_point center_lat center_lng radius_km d.1 d.2.1 d.2.2 coslat)

/-- Squared kilometre distance from the circle center under the same linear
degree-to-km approximation the sampler uses. -/
def approxKmSq (center p : ℚ × ℚ) (coslat : ℚ) : ℚ :=
  ((p.1 - center.1) * (5527/50))^2 + ((p.2 - center.2) * (2783/25) * coslat)^2

/-! ## Nearest place name -/

structure Place where
  coords : ℚ × ℚ
  name : String
deriving DecidableEq

def nearerStep (dist : Dist) (p : ℚ × ℚ) (acc : Option Place) (pl : Place) : Option Place :=
  match acc with
  | none => some pl
  | some best => if dist p pl.coords < dist p best.coords then some pl else acc

def nearestPlace (dist : Dist) (p : ℚ × ℚ) (places : List Place) : Option Place :=
  places.foldl (nearerStep dist p) none

/-- Modelled from the spec: no `nearestPlaceName` implementation exists under
`src/` (no endpoint produces a `place_name` field); this follows the spec's
words: the name of the nearest places-entry when it is within 2.0 km,
"Unnamed Place" when that name is blank, else "Open Area". -/
def nearestPlaceName (dist : Dist) (p : ℚ × ℚ) (places : List Place) : String :=
  match nearestPlace dist p places with
  | none => "Open Area"
  | some pl =>
    if dist p pl.coords ≤ 2 then
      (if pl.name = "" then "Unnamed Place" else pl.name)
    else "Open Area"

/-! ## Concrete inputs used by counterexamples and witnesses -/

/-- A well-formed Point feature at (lat 10, lon 20) tagged `settlement`. -/
def pointFeatureA : Feature :=
  { geometry := { type? := some "Point",
                  coordinates? := some (CoordVal.list [CoordVal.num 20, CoordVal.num 10]) },
    fclass? := some "settlement", name? := some "X" }

/-- The record `pointFeatureA` normalizes to. -/
def recA : Record :=
  { latitude := CoordVal.num 10, longitude := CoordVal.num 20,
    fclass? := some "settlement", name? := some "X" }

/-- A malformed feature: missing geometry, so `geom['type']` raises. -/
def badFeature : Feature :=
  { geometry := { type? := none, coordinates? := none }, fclass? := none, name? := none }

/-- A valid Polygon feature (a triangle): the code has no branch for it. -/
def polyFeature : Feature :=
  { geometry := { type? := some "Polygon",
                  coordinates? := some (CoordVal.list [CoordVal.list
                    [CoordVal.list [CoordVal.num 0, CoordVal.num 0],
                     CoordVal.list [CoordVal.num 0, CoordVal.num 1],
                     CoordVal.list [CoordVal.num 1, CoordVal.num 0]]]) },
    fclass? := some "park", name? := some "Tri" }

/-! ## C2 — the near-settlement flag -/

/-- C2 counterexample.  The claim states the flag is true whenever the nearest
settlement is at most 2.0 km away, in particular at distance exactly 0.  The
code tests `0 < d <= 2.0`, so a query point whose coordinates coincide with
the only settlement (distance 0 under any distance function, geodesic
included) gets `near_settlement = false`. -/
theorem near_settlement_zero_dist_counterexample :
    approxDistKm (10, 20) (10, 20) = 0 ∧
    near_settlement approxDistKm (10, 20) [(10, 20)] = false := by
  constructor
  · simp [approxDistKm]
  · simp [near_settlement, approxDistKm]

/-- C2 amended: `near_settlement` is true iff some settlement lies at a
distance that is strictly positive and at most 2.0 km; a settlement at
distance exactly 0 (identical coordinates) does not by itself set the flag. -/
theorem near_settlement_iff_strict_band (dist : Dist) (p : ℚ × ℚ)
    (settlement_coords : List (ℚ × ℚ)) :
    near_settlement dist p settlement_coords = true ↔
      ∃ s ∈ settlement_coords, 0 < dist p s ∧ dist p s ≤ 2 := by
  simp [near_settlement, List.any_eq_true]

/-- C2 witness: the spec's own end-to-end scenario, a point 0.555 km from the
settlement at (10, 20), sets the flag. -/
theorem near_settlement_iff_strict_band_witness :
    near_settlement approxDistKm (10, 4001/200) [(10, 20)] = true := by
  have hd : approxDistKm (10, 4001/200) (10, 20) = 111/200 := by
    simp only [approxDistKm]
    rw [show (10 : ℚ) - 10 = 0 by ring, show (4001 : ℚ)/200 - 20 = 1/200 by ring,
        abs_zero, abs_of_pos (by norm_num : (0 : ℚ) < 1/200)]
    norm_num
  exact (near_settlement_iff_strict_band approxDistKm (10, 4001/200) [(10, 20)]).mpr
    ⟨(10, 20), by simp, by rw [hd]; norm_num, by rw [hd]; norm_num⟩

/-! ## C4 — deduplication at ingestion -/

/-- C4 counterexample: two identical Point features normalize to two records
of the same category with identical coordinates; ingestion performs no
deduplication. -/
theorem duplicate_points_retained_counterexample :
    ¬ dedupInvariant (process_geojson [pointFeatureA, pointFeatureA]) := by
  intro h
  have h2 : process_geojson [pointFeatureA, pointFeatureA] = [recA, recA] := rfl
  rw [h2] at h
  rcases List.pairwise_cons.mp h with ⟨h1, -⟩
  exact h1 recA (by simp) rfl ⟨rfl, rfl⟩

/-- C4 amended: ingestion keeps every record a valid Point feature produces,
one per feature, with no deduplication, so identical (latitude, longitude)
pairs may repeat within a dataset. -/
theorem process_geojson_no_dedup (f : Feature) (r : Record) (fs : List Feature)
    (h : processFeature f = Except.ok (some r)) :
    process_geojson (f :: fs) = r :: process_geojson fs := by
  simp [process_geojson, h]

/-- C4 witness: applying the amended statement twice to the duplicated
feature yields the duplicated record list. -/
theorem process_geojson_no_dedup_witness :
    process_geojson [pointFeatureA, pointFeatureA] = [recA, recA] := by
  rw [process_geojson_no_dedup pointFeatureA recA [pointFeatureA] rfl,
      process_geojson_no_dedup pointFeatureA recA [] rfl]
  rfl

/-! ## C5 — isolation of malformed features -/

/-- C5 counterexample.  The claim states one malformed feature never aborts
processing of the features that follow it.  The `try` of `process_geojson`
wraps the whole loop, so the valid Point feature after the malformed one is
never reached, although on its own it normalizes fine. -/
theorem malformed_feature_aborts_counterexample :
    process_geojson [badFeature, pointFeatureA] = [] ∧
    process_geojson [pointFeatureA] = [recA] := ⟨rfl, rfl⟩

/-- C5 amended: a malformed feature aborts the whole loop: the records of the
features before it are kept and returned, and it and every feature after it
contribute nothing. -/
theorem malformed_feature_truncates (bad : Feature) (e : String)
    (h : processFeature bad = Except.error e) :
    ∀ (pre rest : List Feature),
      process_geojson (pre ++ bad :: rest) = process_geojson pre := by
  intro pre rest
  induction pre with
  | nil => simp [process_geojson, h]
  | cons f pre ih =>
    rcases hf : processFeature f with e2 | o
    · simp [process_geojson, hf]
    · rcases o with _ | r <;> simp [process_geojson, hf, ih]

/-- C5 witness: the record before the malformed feature survives, the valid
record after it is lost. -/
theorem malformed_feature_truncates_witness :
    process_geojson ([pointFeatureA] ++ badFeature :: [pointFeatureA]) =
      process_geojson [pointFeatureA] :=
  malformed_feature_truncates badFeature "KeyError type" rfl [pointFeatureA] [pointFeatureA]

/-! ## C6 — centroid collapse of non-Point geometries -/

/-- C6 counterexample.  The claim states a polygon feature is emitted as one
record at the centroid of its flattened coordinate pairs (here (1/3, 1/3)).
The code has only a `Point` branch, so the valid triangle produces no record
at all. -/
theorem polygon_skipped_counterexample :
    process_geojson [polyFeature] = [] := rfl

/-- C6 amended: the normalizer emits a record only for geometry type "Point",
at the literal coordinate; every feature of any other geometry type is
skipped entirely, with no centroid computed. -/
theorem point_only_normalization (f : Feature) :
    (∀ t, f.geometry.type? = some t → t ≠ "Point" →
       processFeature f = Except.ok none) ∧
    (∀ a b, f.geometry.type? = some "Point" →
       f.geometry.coordinates? = some (CoordVal.list [a, b]) →
       processFeature f = Except.ok (some
         { latitude := b, longitude := a, fclass? := f.fclass?, name? := f.name? })) := by
  constructor
  · intro t ht hne
    simp [processFeature, ht, hne]
  · intro a b ht hc
    simp [processFeature, ht, hc]

/-- C6 witness: the triangle is skipped, a literal Point is kept. -/
theorem point_only_normalization_witness :
    processFeature polyFeature = Except.ok none ∧
    processFeature pointFeatureA = Except.ok (some recA) :=
  ⟨(point_only_normalization polyFeature).1 "Polygon" rfl (by decide),
   (point_only_normalization pointFeatureA).2 (CoordVal.num 20) (CoordVal.num 10) rfl rfl⟩

/-! ## C1 — behavior when the model artifact is unavailable -/

/-- The module state after a failed artifact load, with no settlements. -/
def ctxUnloaded : Ctx := { model? := none, feature_columns? := none, settlement_coords := [] }

/-- A sample query location. -/
def loc10 : Location := { latitude := 10, longitude := 20, fclass := "open_land" }

/-- C1 counterexample.  The claim states batch prediction raises a
model-unavailable condition whenever an artifact is missing and never
returns synthetic numeric predictions.  The python-api copy defines
`predict_locations_logic` twice, the second definition wins, and with no
model it answers the request successfully with a mock record carrying a
numeric confidence (here the draw 3/4, returned as 0.75). -/
theorem pyapi_mock_fallback_counterexample :
    predict_locations_logic_pyapi approxDistKm (fun _ => 3/4) ctxUnloaded [loc10] =
      Except.ok [{ latitude := 10, longitude := 20, suitable := false,
                   confidence := some (3/4) }] := by
  have hm : pymod 10 1 = 0 := by simp [pymod]
  have hl : pymod 20 1 = 0 := by simp [pymod]
  have hr : round2 (3/4) = 3/4 := by
    simp [round2, roundHalfEven]
    norm_num
  simp [predict_locations_logic_pyapi, ctxUnloaded, mock_result, loc10, hm, hl, hr]
  rw [show pymod (0 : ℚ) 3 = 0 by simp [pymod]]
  norm_num

/-- C1 amended: with a missing model or schema, the server copy raises
"Model not loaded properly", while the effective python-api copy returns a
successful response of synthetic mock records, one per location. -/
theorem model_unavailable_behavior (dist : Dist) (draws : ℕ → ℚ) (ctx : Ctx)
    (locations : List Location)
    (h : ctx.model? = none ∨ ctx.feature_columns? = none) :
    predict_locations_logic_server dist ctx locations =
      Except.error "Model not loaded properly" ∧
    predict_locations_logic_pyapi dist draws ctx locations =
      Except.ok ((locations.enum).map (fun p => mock_result p.2 (draws p.1))) := by
  rcases ctx with ⟨mo, fo, sc⟩
  rcases h with h | h <;> simp only at h <;> subst h
  · exact ⟨rfl, rfl⟩
  · cases mo <;> exact ⟨rfl, rfl⟩

/-- C1 witness: both behaviors at the concrete unloaded context. -/
theorem model_unavailable_behavior_witness :
    predict_locations_logic_server approxDistKm ctxUnloaded [loc10] =
      Except.error "Model not loaded properly" :=
  (model_unavailable_behavior approxDistKm (fun _ => 3/4) ctxUnloaded [loc10]
    (Or.inl rfl)).1

/-! ## C3 — column alignment against the trained schema -/

/-- C3: after one-hot encoding and reindexing, a row has exactly the schema's
columns in the schema's order; a schema column the batch did not produce is
filled with 0, every value present is the encoded row's value, and columns
the batch produced outside the schema do not appear. -/
theorem reindex_alignment (cols dummyCols : List String) (lat lon : ℚ)
    (fc : String) (near : Bool) :
    ((reindexRow cols (encodedRow dummyCols lat lon fc near)).map Prod.fst = cols) ∧
    (∀ c v, (c, v) ∈ reindexRow cols (encodedRow dummyCols lat lon fc near) →
       c ∈ cols ∧ v = ((encodedRow dummyCols lat lon fc near).lookup c).getD 0) ∧
    (∀ c, c ∈ cols → (encodedRow dummyCols lat lon fc near).lookup c = none →
       (c, 0) ∈ reindexRow cols (encodedRow dummyCols lat lon fc near)) := by
  refine ⟨?_, ?_, ?_⟩
  · simp [reindexRow, List.map_map, Function.comp_def]
  · intro c v hcv
    simp only [reindexRow, List.mem_map] at hcv
    rcases hcv with ⟨c2, hc2, heq⟩
    rcases Prod.mk.injEq .. ▸ heq with ⟨h1, h2⟩
    subst h1
    exact ⟨hc2, h2.symm⟩
  · intro c hc hnone
    simp only [reindexRow, List.mem_map]
    exact ⟨c, hc, by simp [hnone]⟩

/-- C3 witness: a schema with a column the batch lacks ("fclass_shop" absent
from a batch whose only categorical value is "open_land") and a batch column
outside the schema ("fclass_open_land"). -/
theorem reindex_alignment_witness :
    (reindexRow ["latitude", "longitude", "near_settlement", "fclass_shop"]
      (encodedRow ["open_land"] 1 2 "open_land" true)).map Prod.fst =
      ["latitude", "longitude", "near_settlement", "fclass_shop"] :=
  (reindex_alignment ["latitude", "longitude", "near_settlement", "fclass_shop"]
    ["open_land"] 1 2 "open_land" true).1

/-! ## C7 — shape and content of a successful batch prediction -/

theorem buildResults_ok (locations : List Location)
    (pairs : List (Bool × Option (ℚ × ℚ))) :
    ∀ i, i + pairs.length ≤ locations.length →
      buildResults locations i pairs =
        Except.ok (((locations.drop i).zip pairs).map (fun x => mkRec x.1 x.2.1 x.2.2)) := by
  induction pairs with
  | nil =>
    intro i h
    simp [buildResults]
  | cons pr rest ih =>
    intro i h
    have hi : i < locations.length := by
      simp at h
      omega
    have ih2 := ih (i + 1) (by simp at h ⊢; omega)
    simp only [buildResults, List.getElem?_eq_getElem hi, ih2]
    rw [List.drop_eq_getElem_cons hi, List.zip_cons_cons, List.map_cons]

/-- The record list a successful server-side batch prediction produces. -/
def serverBatch (dist : Dist) (ctx : Ctx) (m : Model) (cols : List String)
    (locations : List Location) : List ResultRec :=
  expectedResults locations
    (m.predict (buildMatrix dist ctx.settlement_coords cols locations))
    (probaList m (buildMatrix dist ctx.settlement_coords cols locations))

/-- C7: when the model and schema are loaded and the classifier honours its
length contract, the batch operation succeeds with exactly one record per
input, in input order; record `i` is `mkRec` of input `i`, the predicted
label `i`, and the class-probability pair `i` — so it carries the input's
coordinates, `suitable` equal to the predicted label, and `confidence` equal
to the class-1 probability rounded to 2 decimals, or `none` when the
classifier exposes no probabilities. -/
theorem predict_batch_contract (dist : Dist) (ctx : Ctx) (m : Model)
    (cols : List String) (locations : List Location)
    (hm : ctx.model? = some m) (hc : ctx.feature_columns? = some cols)
    (hp : ∀ M : List (List ℚ), (m.predict M).length = M.length)
    (hq : ∀ f, m.predict_proba = some f →
       ∀ M : List (List ℚ), (f M).length = M.length) :
    predict_locations_logic_server dist ctx locations =
      Except.ok (serverBatch dist ctx m cols locations) ∧
    (serverBatch dist ctx m cols locations).length = locations.length ∧
    (∀ i, i < locations.length →
      (serverBatch dist ctx m cols locations).getD i default =
        mkRec (locations.getD i default)
          ((m.predict (buildMatrix dist ctx.settlement_coords cols locations)).getD i false)
          ((probaList m (buildMatrix dist ctx.settlement_coords cols locations)).getD i none)) := by
  have hX : (buildMatrix dist ctx.settlement_coords cols locations).length
      = locations.length := by
    simp [buildMatrix]
  have hpl : (m.predict (buildMatrix dist ctx.settlement_coords cols locations)).length
      = locations.length := by rw [hp, hX]
  have hprob : (probaList m (buildMatrix dist ctx.settlement_coords cols locations)).length
      = locations.length := by
    rcases hpp : m.predict_proba with _ | f
    · simp [probaList, hpp, hpl]
    · simp [probaList, hpp, hq f hpp, hX]
  have hzip : ((m.predict (buildMatrix dist ctx.settlement_coords cols locations)).zip
      (probaList m (buildMatrix dist ctx.settlement_coords cols locations))).length
      = locations.length := by
    simp [List.length_zip, hpl, hprob]
  have h1 : predict_locations_logic_server dist ctx locations =
      Except.ok (serverBatch dist ctx m cols locations) := by
    rcases ctx with ⟨mo, fo, sc⟩
    simp only at hm hc
    subst hm
    subst hc
    simp only [predict_locations_logic_server]
    rw [buildResults_ok _ _ 0 (by simp only at hzip ⊢; omega)]
    simp [serverBatch, expectedResults]
  refine ⟨h1, by simp [serverBatch, expectedResults, List.length_zip, hpl, hprob], ?_⟩
  intro i hi
  have hiz : i < (locations.zip
      ((m.predict (buildMatrix dist ctx.settlement_coords cols locations)).zip
        (probaList m (buildMatrix dist ctx.settlement_coords cols locations)))).length := by
    simp [List.length_zip, hpl, hprob]
    omega
  have hib : i < (serverBatch dist ctx m cols locations).length := by
    simpa [serverBatch, expectedResults] using hiz
  rw [List.getD_eq_getElem?_getD, List.getElem?_eq_getElem hib, Option.getD_some]
  have hgl : i < locations.length := hi
  have hgp : i < (m.predict (buildMatrix dist ctx.settlement_coords cols locations)).length := by
    omega
  have hgq : i < (probaList m (buildMatrix dist ctx.settlement_coords cols locations)).length := by
    omega
  simp only [serverBatch, expectedResults, List.getElem_map, List.getElem_zip]
  rw [List.getD_eq_getElem?_getD, List.getElem?_eq_getElem hgl, Option.getD_some,
      List.getD_eq_getElem?_getD, List.getElem?_eq_getElem hgp, Option.getD_some,
      List.getD_eq_getElem?_getD, List.getElem?_eq_getElem hgq, Option.getD_some]

/-- A trivial concrete classifier honouring the length contract: every row is
labelled unsuitable, with class probabilities (1/2, 1/2). -/
def mHalf : Model :=
  { predict := fun M => M.map (fun _ => false),
    predict_proba := some (fun M => M.map (fun _ => (1/2, 1/2))) }

/-- A loaded context over `mHalf` with a one-column schema. -/
def ctxHalf : Ctx :=
  { model? := some mHalf, feature_columns? := some ["latitude"],
    settlement_coords := [] }

/-- C7 witness: the contract applied to a concrete loaded context. -/
theorem predict_batch_contract_witness :
    predict_locations_logic_server approxDistKm ctxHalf [loc10] =
      Except.ok (serverBatch approxDistKm ctxHalf mHalf ["latitude"] [loc10]) :=
  (predict_batch_contract approxDistKm ctxHalf mHalf ["latitude"] [loc10] rfl rfl
    (fun M => by simp [mHalf])
    (fun f hf M => by
      rcases hf.symm.trans rfl with h
      cases h
      simp [mHalf])).1

/-! ## C8 — the circle-sampling law -/

/-- C8: under the sampler's own linear degree-to-km approximation, the squared
distance of a generated point from the center equals `sq^2 * R^2` (with `sq`
the radial factor, the square root of the uniform draw), which is the
area-uniform law — the chance of landing within radius `t` is `(t/R)^2` when
`sq^2` is uniform on [0, 1] — and in particular every generated point lies
within distance `R` of the center. -/
theorem circle_sampling_law (clat clng R coslat : ℚ) (draws : List (ℚ × ℚ × ℚ))
    (_hR : 0 ≤ R) (hcos : coslat ≠ 0)
    (hdraws : ∀ d ∈ draws, d.1^2 + d.2.1^2 = 1 ∧ 0 ≤ d.2.2 ∧ d.2.2 ≤ 1) :
    (∀ d ∈ draws,
       approxKmSq (clat, clng) (generate_point clat clng R d.1 d.2.1 d.2.2 coslat) coslat
         = d.2.2^2 * R^2) ∧
    (∀ p ∈ generate_points_in_circle clat clng R coslat draws,
       approxKmSq (clat, clng) p coslat ≤ R^2) := by
  have h5527 : (5527/50 : ℚ) ≠ 0 := by norm_num
  have hden : (2783/25 : ℚ) * coslat ≠ 0 := mul_ne_zero (by norm_num) hcos
  have key : ∀ c s sq : ℚ, c^2 + s^2 = 1 →
      approxKmSq (clat, clng) (generate_point clat clng R c s sq coslat) coslat
        = sq^2 * R^2 := by
    intro c s sq hcs
    simp only [approxKmSq, generate_point]
    rw [add_sub_cancel_left, add_sub_cancel_left, div_mul_cancel₀ _ h5527,
        mul_assoc (R * sq * s / ((2783/25) * coslat)), div_mul_cancel₀ _ hden]
    linear_combination (R^2 * sq^2) * hcs
  refine ⟨fun d hd => key d.1 d.2.1 d.2.2 (hdraws d hd).1, ?_⟩
  intro p hp
  simp only [generate_points_in_circle, List.mem_map] at hp
  rcases hp with ⟨d, hd, rfl⟩
  rcases hdraws d hd with ⟨hcs, hsq0, hsq1⟩
  rw [key d.1 d.2.1 d.2.2 hcs]
  have hsq2 : d.2.2^2 ≤ 1 := by nlinarith
  have := mul_le_mul_of_nonneg_right hsq2 (sq_nonneg R)
  linarith

/-- C8 witness: one concrete draw (a 3-4-5 angle, radial factor 1/2) for a
5 km circle at the equator-like `coslat = 1`. -/
theorem circle_sampling_law_witness :
    approxKmSq (0, 0) (generate_point 0 0 5 (3/5) (4/5) (1/2) 1) 1 ≤ 5^2 :=
  (circle_sampling_law 0 0 5 1 [(3/5, 4/5, 1/2)] (by norm_num) (by norm_num)
    (by
      intro d hd
      simp only [List.mem_singleton] at hd
      subst hd
      norm_num)).2
    _ (List.mem_map_of_mem _ (List.mem_singleton.mpr rfl))

/-! ## C9 — the nearest-place-name lookup (spec-modelled) -/

theorem nearestPlace_mem (dist : Dist) (p : ℚ × ℚ) :
    ∀ (places : List Place) (acc : Option Place) (pl : Place),
      places.foldl (nearerStep dist p) acc = some pl → pl ∈ places ∨ acc = some pl := by
  intro places
  induction places with
  | nil =>
    intro acc pl h
    exact Or.inr h
  | cons q rest ih =>
    intro acc pl h
    rcases ih (nearerStep dist p acc q) pl h with hmem | hstep
    · exact Or.inl (List.mem_cons_of_mem q hmem)
    · rcases acc with _ | best
      · simp only [nearerStep] at hstep
        rcases hstep with ⟨rfl⟩
        exact Or.inl (List.mem_cons_self q rest)
      · simp only [nearerStep] at hstep
        by_cases hlt : dist p q.coords < dist p best.coords
        · rw [if_pos hlt] at hstep
          rcases hstep with ⟨rfl⟩
          exact Or.inl (List.mem_cons_self q rest)
        · rw [if_neg hlt] at hstep
          exact Or.inr hstep

/-- C9: the lookup answers "Open Area" when every place is farther than
2.0 km, "Unnamed Place" when the nearest place is within 2.0 km but its name
is blank, and the literal name of the nearest place within 2.0 km otherwise. -/
theorem nearestPlaceName_cases (dist : Dist) (p : ℚ × ℚ) (places : List Place) :
    ((∀ pl ∈ places, ¬ dist p pl.coords ≤ 2) →
       nearestPlaceName dist p places = "Open Area") ∧
    (∀ pl, nearestPlace dist p places = some pl → dist p pl.coords ≤ 2 →
       pl.name = "" → nearestPlaceName dist p places = "Unnamed Place") ∧
    (∀ pl, nearestPlace dist p places = some pl → dist p pl.coords ≤ 2 →
       pl.name ≠ "" → nearestPlaceName dist p places = pl.name) := by
  refine ⟨?_, ?_, ?_⟩
  · intro hfar
    rcases hnp : nearestPlace dist p places with _ | pl
    · simp [nearestPlaceName, hnp]
    · have hmem : pl ∈ places := by
        rcases nearestPlace_mem dist p places none pl hnp with h | h
        · exact h
        · cases h
      simp [nearestPlaceName, hnp, hfar pl hmem]
  · intro pl hnp hle hname
    simp [nearestPlaceName, hnp, hle, hname]
  · intro pl hnp hle hname
    simp [nearestPlaceName, hnp, hle, hname]

/-- C9 witness: the spec's Testville scenario — one place named "Testville"
at (10, 20), queried from 0.555 km away. -/
theorem nearestPlaceName_cases_witness :
    nearestPlaceName approxDistKm (10, 4001/200) [{ coords := (10, 20), name := "Testville" }]
      = "Testville" := by
  have hd : approxDistKm (10, 4001/200) (10, 20) = 111/200 := by
    simp only [approxDistKm]
    rw [show (10 : ℚ) - 10 = 0 by ring, show (4001 : ℚ)/200 - 20 = 1/200 by ring,
        abs_zero, abs_of_pos (by norm_num : (0 : ℚ) < 1/200)]
    norm_num
  exact (nearestPlaceName_cases approxDistKm (10, 4001/200)
      [{ coords := (10, 20), name := "Testville" }]).2.2
    { coords := (10, 20), name := "Testville" } rfl (by rw [hd]; norm_num) (by decide)

/-! ## C10 — the force-mixed-results overwrite -/

/-- C10: when the artifacts are loaded and the real predictions are all
unsuitable, `/force-mixed-results` returns the prediction list with every
record at an index divisible by 3 overwritten to suitable with confidence
0.75, the others untouched; in particular the first returned record differs
from the classifier's actual prediction for it. -/
theorem force_mixed_overwrite (dist : Dist) (ctx : Ctx) (locations : List Location)
    (m : Model) (cols : List String) (results : List ResultRec)
    (hm : ctx.model? = some m) (hc : ctx.feature_columns? = some cols)
    (hr : predict_locations_logic_server dist ctx locations = Except.ok results)
    (hall : results.all (fun r => !r.suitable) = true) :
    force_mixed_results dist ctx locations = Except.ok (overwriteThird results) ∧
    (overwriteThird results).length = results.length ∧
    (∀ i, i < results.length →
      (overwriteThird results).getD i default =
        (if i % 3 = 0
         then { results.getD i default with suitable := true, confidence := some (3/4) }
         else results.getD i default)) ∧
    (0 < results.length →
      ((overwriteThird results).getD 0 default).suitable = true ∧
      ((overwriteThird results).getD 0 default).confidence = some (3/4) ∧
      (results.getD 0 default).suitable = false) := by
  have hlen : (overwriteThird results).length = results.length := by
    simp [overwriteThird]
  have hidx : ∀ i, i < results.length →
      (overwriteThird results).getD i default =
        (if i % 3 = 0
         then { results.getD i default with suitable := true, confidence := some (3/4) }
         else results.getD i default) := by
    intro i hi
    have hib : i < (overwriteThird results).length := by rw [hlen]; exact hi
    have hie : i < results.enum.length := by simp [List.enum_length, hi]
    rw [List.getD_eq_getElem?_getD, List.getElem?_eq_getElem hib, Option.getD_some,
        List.getD_eq_getElem?_getD, List.getElem?_eq_getElem hi, Option.getD_some]
    simp only [overwriteThird, List.getElem_map]
    have henum : results.enum[i] = (i, results[i]) := by
      have := List.getElem?_enum results i
      rw [List.getElem?_eq_getElem hie, List.getElem?_eq_getElem hi] at this
      exact Option.some_injective _ this
    rw [henum]
  refine ⟨?_, hlen, hidx, ?_⟩
  · rcases ctx with ⟨mo, fo, sc⟩
    simp only at hm hc
    subst hm
    subst hc
    simp only [force_mixed_results, hr, hall, if_true]
  · intro hpos
    have h0 := hidx 0 hpos
    simp only [Nat.zero_mod, if_pos rfl] at h0
    have hsuit : (results.getD 0 default).suitable = false := by
      have hmem : results.getD 0 default ∈ results := by
        rw [List.getD_eq_getElem?_getD, List.getElem?_eq_getElem hpos, Option.getD_some]
        exact List.getElem_mem hpos
      have := (List.all_eq_true.mp hall) _ hmem
      simpa using this
    rw [h0]
    exact ⟨rfl, rfl, hsuit⟩

/-- A loaded context whose classifier rejects everything and exposes no
probabilities. -/
def ctxAllFalse : Ctx :=
  { model? := some { predict := fun M => M.map (fun _ => false), predict_proba := none },
    feature_columns? := some ["latitude"], settlement_coords := [] }

/-- C10 witness: with one query point the real batch is the single
unsuitable record, and the endpoint returns it overwritten. -/
theorem force_mixed_overwrite_witness :
    force_mixed_results approxDistKm ctxAllFalse [loc10] =
      Except.ok (overwriteThird
        [{ latitude := 10, longitude := 20, suitable := false, confidence := none }]) :=
  (force_mixed_overwrite approxDistKm ctxAllFalse [loc10]
    { predict := fun M => M.map (fun _ => false), predict_proba := none } ["latitude"]
    [{ latitude := 10, longitude := 20, suitable := false, confidence := none }]
    rfl rfl (by rfl) (by rfl)).1

end StorePlacement
